import Mathlib

/-!
Shallow embedding of the order / credit-ledger subsystem of the rnd_ai
webapp.  Each definition mirrors one source function:

* `updateShippingCost`, `updateStatus`, `createOrder`, `submitClientOrder`
  follow `ordersRouter` in `src/unnamed/part_008`;
* `addCredits`, `adjustCredits` follow `organizationsRouter` in
  `src/webapp/server/routers/organizations.ts`;
* `calculateOrderCosts`, `getTotalCost` follow the client-side shipping
  page in `src/unnamed/part_003`.

Money amounts are modelled as rationals, ids as naturals, integer-valued
JS numbers (quantities, stock) as integers.  The Mongo collections are
modelled as association lists from id to document plus an append-only
list for `credit_transactions`; `findOne`/`updateOne`/insert mirror the
driver calls used by the source.  A thrown error is modelled by the
`Except.error` component of the returned pair; the returned `DB` is the
state at the moment of the throw (the source runs no transaction, so
writes made before a throw persist).  Timestamps (`createdAt`,
`updatedAt`) and activity-log collections are not modelled: no claim
refers to them.
-/

namespace RndAi

/-- Order lifecycle states, from `OrderStatus` in `src/webapp/lib/types.ts`. -/
inductive OrderStatus where
  | pending
  | processing
  | sent_to_logistic
  | delivered
  | cancelled
  deriving DecidableEq, Repr

/-- Sales channel, from `Channel` in `src/webapp/lib/types.ts`. -/
inductive Channel where
  | line
  | shopee
  | lazada
  | other
  deriving DecidableEq, Repr

/-- Product document, the fields of `ProductSchema` used by the order flow. -/
structure Product where
  organizationId : Nat
  productCode : String
  productName : String
  price : ℚ
  stockQuantity : ℤ
  isActive : Bool
  deriving DecidableEq, Repr

/-- Order document, the fields of `OrderSchema` used by the order flow.
The seven shipping-cost fields and their total default to 0 in the
schema. -/
structure Order where
  organizationId : Nat
  productId : Option Nat
  productCode : String
  productName : String
  price : ℚ
  quantity : ℤ
  channel : Channel
  status : OrderStatus
  pickPackCost : ℚ
  bubbleCost : ℚ
  paperInsideCost : ℚ
  cancelOrderCost : ℚ
  codCost : ℚ
  boxCost : ℚ
  deliveryFeeCost : ℚ
  totalShippingCost : ℚ
  deriving DecidableEq, Repr

/-- Organization document: the `name` and `credits` fields read and
written by the credit flow. -/
structure Organization where
  name : String
  credits : ℚ
  deriving DecidableEq, Repr

/-- A record of the `credit_transactions` collection, as inserted by
`addCredits`, `adjustCredits` and `updateShippingCost`. -/
structure CreditTransaction where
  organizationId : Nat
  organizationName : String
  type : String
  amount : ℚ
  balanceBefore : ℚ
  balanceAfter : ℚ
  description : String
  orderId : Option Nat
  deriving DecidableEq, Repr

/-- The document store: one association list per collection keyed by id,
and the append-only credit ledger. -/
structure DB where
  orders : List (Nat × Order)
  products : List (Nat × Product)
  organizations : List (Nat × Organization)
  credit_transactions : List CreditTransaction
  deriving DecidableEq, Repr

/-- Model of a findOne driver call on the id field. -/
def findOne {α : Type} (coll : List (Nat × α)) (id : Nat) : Option α :=
  (coll.find? (fun p => p.1 == id)).map Prod.snd

/-- Model of an updateOne driver call on the id field: rewrite every
document whose id matches (a no-op when none does, as in Mongo). -/
def updateOne {α : Type} (coll : List (Nat × α)) (id : Nat) (f : α → α) :
    List (Nat × α) :=
  coll.map (fun p => if p.1 == id then (p.1, f p.2) else p)

/-- A fresh id for `insertOne`, larger than every id in the collection. -/
def freshId {α : Type} (coll : List (Nat × α)) : Nat :=
  (coll.map Prod.fst).foldr max 0 + 1

/-- The errors thrown by the modelled routes. -/
inductive OpError where
  | orderNotFound
  | organizationNotFound
  | productNotFound
  | productNotActive
  | insufficientStock (available requested : ℤ)
  | insufficientCredits (required available : ℚ)
  deriving DecidableEq, Repr

/-- Input of `orders.updateShippingCost` (`part_008` lines 350-361):
seven optional caller-supplied cost fields. -/
structure ShippingCostInput where
  id : Nat
  organizationId : Nat
  pickPackCost : Option ℚ
  bubbleCost : Option ℚ
  paperInsideCost : Option ℚ
  cancelOrderCost : Option ℚ
  codCost : Option ℚ
  boxCost : Option ℚ
  deliveryFeeCost : Option ℚ
  deriving DecidableEq, Repr

/-- The total the route computes: each omitted field taken as 0
(`?? 0`), then summed (`part_008` lines 382-397). -/
def shippingTotal (input : ShippingCostInput) : ℚ :=
  input.pickPackCost.getD 0 + input.bubbleCost.getD 0 +
  input.paperInsideCost.getD 0 + input.cancelOrderCost.getD 0 +
  input.codCost.getD 0 + input.boxCost.getD 0 + input.deliveryFeeCost.getD 0

/-- Embedding of `ordersRouter.updateShippingCost` (`part_008` lines 349-453).
Reads the order and organization, sums the caller-supplied cost fields,
guards on the organization's credits, then: sets the new balance,
appends a `deduct` ledger record, and writes the cost fields and total
onto the order.  Returns `(totalShippingCost, newBalance)` on success.
It does not touch the order's `status`. -/
def updateShippingCost (input : ShippingCostInput) (db : DB) :
    DB × Except OpError (ℚ × ℚ) :=
  match findOne db.orders input.id with
  | none => (db, .error .orderNotFound)
  | some order =>
    match findOne db.organizations input.organizationId with
    | none => (db, .error .organizationNotFound)
    | some org =>
      let quantity : ℤ := if order.quantity == 0 then 1 else order.quantity
      let pickPackCost := input.pickPackCost.getD 0
      let bubbleCost := input.bubbleCost.getD 0
      let paperInsideCost := input.paperInsideCost.getD 0
      let cancelOrderCost := input.cancelOrderCost.getD 0
      let codCost := input.codCost.getD 0
      let boxCost := input.boxCost.getD 0
      let deliveryFeeCost := input.deliveryFeeCost.getD 0
      let totalShippingCost :=
        pickPackCost + bubbleCost + paperInsideCost + cancelOrderCost +
        codCost + boxCost + deliveryFeeCost
      let currentCredits := org.credits
      if currentCredits < totalShippingCost then
        (db, .error (.insufficientCredits totalShippingCost currentCredits))
      else
        let newBalance := currentCredits - totalShippingCost
        let db1 : DB :=
          { db with organizations :=
              updateOne db.organizations input.organizationId (fun o =>
                { o with credits := newBalance }) }
        let tx : CreditTransaction :=
          { organizationId := input.organizationId
            organizationName := org.name
            type := "deduct"
            amount := totalShippingCost
            balanceBefore := currentCredits
            balanceAfter := newBalance
            description := "Shipping cost for order " ++ order.productName ++
              " (" ++ toString quantity ++ " items)"
            orderId := some input.id }
        let db2 : DB :=
          { db1 with credit_transactions := db1.credit_transactions ++ [tx] }
        let db3 : DB :=
          { db2 with orders :=
              updateOne db2.orders input.id (fun o =>
                { o with
                  pickPackCost := pickPackCost
                  bubbleCost := bubbleCost
                  paperInsideCost := paperInsideCost
                  cancelOrderCost := cancelOrderCost
                  codCost := codCost
                  boxCost := boxCost
                  deliveryFeeCost := deliveryFeeCost
                  totalShippingCost := totalShippingCost }) }
        (db3, .ok (totalShippingCost, newBalance))

/-- Embedding of `ordersRouter.updateStatus` (`part_008` lines 225-322).
When moving a not-yet-cancelled order to `cancelled`: restores stock to
the referenced product when that product exists, then decrements the
organization's credits by the flat fee of 10 per ordered unit with no
balance guard and with no ledger insert.  Finally rewrites the order's
status.  No other transition has side effects. -/
def updateStatus (id : Nat) (status : OrderStatus) (db : DB) :
    DB × Except OpError Unit :=
  match findOne db.orders id with
  | none => (db, .error .orderNotFound)
  | some order =>
    let db1 : DB :=
      if status = .cancelled ∧ order.status ≠ .cancelled then
        let dbS : DB :=
          match order.productId with
          | some pid =>
            match findOne db.products pid with
            | some _ =>
              { db with products :=
                  updateOne db.products pid (fun p =>
                    { p with stockQuantity := p.stockQuantity + order.quantity }) }
            | none => db
          | none => db
        let cancellationFee : ℚ := (order.quantity : ℚ) * 10
        { dbS with organizations :=
            updateOne dbS.organizations order.organizationId (fun o =>
              { o with credits := o.credits - cancellationFee }) }
      else db
    ({ db1 with orders :=
        updateOne db1.orders id (fun o => { o with status := status }) },
     .ok ())

/-- Input of `orders.create` (`OrderSchema` minus id and timestamps);
only the fields the modelled logic reads.  A missing optional string is
modelled as the empty string (falsy, as under the source's `||`
defaulting). -/
structure CreateOrderInput where
  organizationId : Nat
  productId : Option Nat
  productCode : String
  productName : String
  price : ℚ
  quantity : ℤ
  channel : Channel
  status : OrderStatus
  deriving DecidableEq, Repr

/-- Embedding of `ordersRouter.create` (`part_008` lines 11-99).  When the input
references a product: the product must exist in the input's
organization and be active, the stock guard must pass, then stock is
decremented by the ordered quantity and the order inserted (with
code/name/price defaulted from the product when falsy). -/
def createOrder (input : CreateOrderInput) (db : DB) :
    DB × Except OpError Nat :=
  match input.productId with
  | some pid =>
    match findOne db.products pid with
    | none => (db, .error .productNotFound)
    | some product =>
      if product.organizationId ≠ input.organizationId then
        (db, .error .productNotFound)
      else if product.isActive = false then
        (db, .error .productNotActive)
      else if product.stockQuantity < input.quantity then
        (db, .error (.insufficientStock product.stockQuantity input.quantity))
      else
        let db1 : DB :=
          { db with products :=
              updateOne db.products pid (fun p =>
                { p with stockQuantity := p.stockQuantity - input.quantity }) }
        let ord : Order :=
          { organizationId := input.organizationId
            productId := some pid
            productCode :=
              if input.productCode == "" then product.productCode
              else input.productCode
            productName :=
              if input.productName == "" then product.productName
              else input.productName
            price := if input.price == 0 then product.price else input.price
            quantity := input.quantity
            channel := input.channel
            status := input.status
            pickPackCost := 0
            bubbleCost := 0
            paperInsideCost := 0
            cancelOrderCost := 0
            codCost := 0
            boxCost := 0
            deliveryFeeCost := 0
            totalShippingCost := 0 }
        let oid := freshId db1.orders
        ({ db1 with orders := db1.orders ++ [(oid, ord)] }, .ok oid)
  | none =>
    let ord : Order :=
      { organizationId := input.organizationId
        productId := none
        productCode := input.productCode
        productName := input.productName
        price := input.price
        quantity := input.quantity
        channel := input.channel
        status := input.status
        pickPackCost := 0
        bubbleCost := 0
        paperInsideCost := 0
        cancelOrderCost := 0
        codCost := 0
        boxCost := 0
        deliveryFeeCost := 0
        totalShippingCost := 0 }
    let oid := freshId db.orders
    ({ db with orders := db.orders ++ [(oid, ord)] }, .ok oid)

/-- Input of `orders.submitClientOrder` (`part_008` lines 102-117). -/
structure ClientOrderInput where
  organizationId : Nat
  productId : Option Nat
  productCode : String
  productName : String
  price : ℚ
  quantity : ℤ
  channel : Channel
  deriving DecidableEq, Repr

/-- Embedding of `ordersRouter.submitClientOrder` (`part_008` lines 102-177).  Same
stock guard and decrement as `createOrder`, then inserts the order with
status `pending` (no defaulting from the product here). -/
def submitClientOrder (input : ClientOrderInput) (db : DB) :
    DB × Except OpError Nat :=
  match input.productId with
  | some pid =>
    match findOne db.products pid with
    | none => (db, .error .productNotFound)
    | some product =>
      if product.organizationId ≠ input.organizationId then
        (db, .error .productNotFound)
      else if product.isActive = false then
        (db, .error .productNotActive)
      else if product.stockQuantity < input.quantity then
        (db, .error (.insufficientStock product.stockQuantity input.quantity))
      else
        let db1 : DB :=
          { db with products :=
              updateOne db.products pid (fun p =>
                { p with stockQuantity := p.stockQuantity - input.quantity }) }
        let ord : Order :=
          { organizationId := input.organizationId
            productId := some pid
            productCode := input.productCode
            productName := input.productName
            price := input.price
            quantity := input.quantity
            channel := input.channel
            status := .pending
            pickPackCost := 0
            bubbleCost := 0
            paperInsideCost := 0
            cancelOrderCost := 0
            codCost := 0
            boxCost := 0
            deliveryFeeCost := 0
            totalShippingCost := 0 }
        let oid := freshId db1.orders
        ({ db1 with orders := db1.orders ++ [(oid, ord)] }, .ok oid)
  | none =>
    let ord : Order :=
      { organizationId := input.organizationId
        productId := none
        productCode := input.productCode
        productName := input.productName
        price := input.price
        quantity := input.quantity
        channel := input.channel
        status := .pending
        pickPackCost := 0
        bubbleCost := 0
        paperInsideCost := 0
        cancelOrderCost := 0
        codCost := 0
        boxCost := 0
        deliveryFeeCost := 0
        totalShippingCost := 0 }
    let oid := freshId db.orders
    ({ db with orders := db.orders ++ [(oid, ord)] }, .ok oid)

/-- Input of `organizations.addCredits`. -/
structure AddCreditsInput where
  organizationId : Nat
  amount : ℚ
  description : String
  deriving DecidableEq, Repr

/-- Embedding of `organizationsRouter.addCredits` (`organizations.ts` lines 40-91):
new balance is `before + amount`; an `add` ledger record is appended. -/
def addCredits (input : AddCreditsInput) (db : DB) :
    DB × Except OpError ℚ :=
  match findOne db.organizations input.organizationId with
  | none => (db, .error .organizationNotFound)
  | some org =>
    let balanceBefore := org.credits
    let balanceAfter := balanceBefore + input.amount
    let db1 : DB :=
      { db with organizations :=
          updateOne db.organizations input.organizationId (fun o =>
            { o with credits := balanceAfter }) }
    let tx : CreditTransaction :=
      { organizationId := input.organizationId
        organizationName := org.name
        type := "add"
        amount := input.amount
        balanceBefore := balanceBefore
        balanceAfter := balanceAfter
        description := input.description
        orderId := none }
    ({ db1 with credit_transactions := db1.credit_transactions ++ [tx] },
     .ok balanceAfter)

/-- Input of `organizations.adjustCredits`. -/
structure AdjustCreditsInput where
  organizationId : Nat
  newAmount : ℚ
  description : String
  deriving DecidableEq, Repr

/-- Embedding of `organizationsRouter.adjustCredits` (`organizations.ts` lines
94-146): the balance is set to `newAmount` and an `adjust` ledger
record with `amount = after - before` is appended. -/
def adjustCredits (input : AdjustCreditsInput) (db : DB) :
    DB × Except OpError ℚ :=
  match findOne db.organizations input.organizationId with
  | none => (db, .error .organizationNotFound)
  | some org =>
    let balanceBefore := org.credits
    let balanceAfter := input.newAmount
    let amount := balanceAfter - balanceBefore
    let db1 : DB :=
      { db with organizations :=
          updateOne db.organizations input.organizationId (fun o =>
            { o with credits := balanceAfter }) }
    let tx : CreditTransaction :=
      { organizationId := input.organizationId
        organizationName := org.name
        type := "adjust"
        amount := amount
        balanceBefore := balanceBefore
        balanceAfter := balanceAfter
        description := input.description
        orderId := none }
    ({ db1 with credit_transactions := db1.credit_transactions ++ [tx] },
     .ok balanceAfter)

/-- The seven admin-configurable rates of the shipping page
(`part_003` lines 58-66). -/
structure Rates where
  pickPack : ℚ
  bubble : ℚ
  paperInside : ℚ
  cancelOrder : ℚ
  codPercent : ℚ
  box : ℚ
  deliveryFee : ℚ
  deriving DecidableEq, Repr

/-- The per-line cost breakdown returned by `calculateOrderCosts`. -/
structure OrderCosts where
  pickPackCost : ℚ
  bubbleCost : ℚ
  paperInsideCost : ℚ
  cancelOrderCost : ℚ
  codCost : ℚ
  boxCost : ℚ
  deliveryFeeCost : ℚ
  deriving DecidableEq, Repr

/-- Embedding of `calculateOrderCosts` (`part_003` lines 82-98): per-piece rates
scaled by quantity, the cancel cost only for cancelled orders, COD as a
percentage of `price * quantity`, box and delivery fee flat per order. -/
def calculateOrderCosts (rates : Rates) (order : Order) : OrderCosts :=
  let quantity : ℚ := (order.quantity : ℚ)
  let orderTotal := order.price * quantity
  let isCancelled : Bool := order.status == .cancelled
  { pickPackCost := rates.pickPack * quantity
    bubbleCost := rates.bubble * quantity
    paperInsideCost := rates.paperInside * quantity
    cancelOrderCost := if isCancelled then rates.cancelOrder * quantity else 0
    codCost := orderTotal * (rates.codPercent / 100)
    boxCost := rates.box
    deliveryFeeCost := rates.deliveryFee }

/-- Embedding of `getTotalCost` (`part_003` lines 100-111): the sum of the seven
components of `calculateOrderCosts`. -/
def getTotalCost (rates : Rates) (order : Order) : ℚ :=
  let costs := calculateOrderCosts rates order
  costs.pickPackCost + costs.bubbleCost + costs.paperInsideCost +
  costs.cancelOrderCost + costs.codCost + costs.boxCost +
  costs.deliveryFeeCost

/-! ## Helper lemmas about the collection model -/

/-- Looking up the id just rewritten by `updateOne` returns the mapped
document. -/
theorem findOne_updateOne_self {α : Type} (coll : List (Nat × α)) (id : Nat)
    (f : α → α) :
    findOne (updateOne coll id f) id = (findOne coll id).map f := by
  induction coll with
  | nil => rfl
  | cons p t ih =>
    rcases p with ⟨k, a⟩
    by_cases h : k = id
    · subst h
      simp [findOne, updateOne, List.find?_cons]
    · have hb : (k == id) = false := by simp [h]
      simp only [findOne, updateOne, List.map_cons] at ih ⊢
      simp only [hb, Bool.false_eq_true, if_false]
      rw [List.find?_cons_of_neg, List.find?_cons_of_neg]
      · exact ih
      · simpa using h
      · simpa using h

/-- Reduction of `updateShippingCost` on its success path: with the order
and organization found and sufficient credits, the result is the explicit
post-state (organization balance set, one `deduct` ledger record appended,
cost fields written onto the order) and the returned pair. -/
theorem updateShippingCost_ok
    (input : ShippingCostInput) (db : DB) (order : Order) (org : Organization)
    (ho : findOne db.orders input.id = some order)
    (hg : findOne db.organizations input.organizationId = some org)
    (hge : shippingTotal input ≤ org.credits) :
    updateShippingCost input db =
      ({ db with
          organizations :=
            updateOne db.organizations input.organizationId (fun o =>
              { o with credits := org.credits - shippingTotal input })
          credit_transactions := db.credit_transactions ++
            [{ organizationId := input.organizationId
               organizationName := org.name
               type := "deduct"
               amount := shippingTotal input
               balanceBefore := org.credits
               balanceAfter := org.credits - shippingTotal input
               description := "Shipping cost for order " ++ order.productName ++
                 " (" ++ toString (if order.quantity == 0 then (1:ℤ) else order.quantity) ++
                 " items)"
               orderId := some input.id }]
          orders :=
            updateOne db.orders input.id (fun o =>
              { o with
                pickPackCost := input.pickPackCost.getD 0
                bubbleCost := input.bubbleCost.getD 0
                paperInsideCost := input.paperInsideCost.getD 0
                cancelOrderCost := input.cancelOrderCost.getD 0
                codCost := input.codCost.getD 0
                boxCost := input.boxCost.getD 0
                deliveryFeeCost := input.deliveryFeeCost.getD 0
                totalShippingCost := shippingTotal input }) },
       .ok (shippingTotal input, org.credits - shippingTotal input)) := by
  have hlt : ¬ org.credits <
      input.pickPackCost.getD 0 + input.bubbleCost.getD 0 +
      input.paperInsideCost.getD 0 + input.cancelOrderCost.getD 0 +
      input.codCost.getD 0 + input.boxCost.getD 0 + input.deliveryFeeCost.getD 0 := by
    simp only [shippingTotal] at hge
    exact not_lt.mpr hge
  simp [updateShippingCost, shippingTotal, ho, hg, hlt]

/-- The `updateStatus` route never touches the credit ledger, in any branch. -/
theorem updateStatus_ledger_invariant (id : Nat) (st : OrderStatus) (db : DB) :
    (updateStatus id st db).1.credit_transactions = db.credit_transactions := by
  cases ho : findOne db.orders id with
  | none => simp [updateStatus, ho]
  | some order =>
    by_cases hc : st = .cancelled ∧ order.status ≠ .cancelled
    · cases hp : order.productId with
      | none => simp [updateStatus, ho, hp, if_pos hc]
      | some pid =>
        cases hq : findOne db.products pid with
        | none => simp [updateStatus, ho, hp, hq, if_pos hc]
        | some p => simp [updateStatus, ho, hp, hq, if_pos hc]
    · simp [updateStatus, ho, if_neg hc]

/-- Reduction of `updateStatus` when cancelling a not-yet-cancelled order
that references an existing product: stock restored, fee deducted, status
rewritten. -/
theorem updateStatus_cancel_eq
    (id : Nat) (db : DB) (order : Order) (pid : Nat) (product : Product)
    (ho : findOne db.orders id = some order)
    (hnc : order.status ≠ .cancelled)
    (hp : order.productId = some pid)
    (hq : findOne db.products pid = some product) :
    updateStatus id .cancelled db =
      ({ db with
          products :=
            updateOne db.products pid (fun p =>
              { p with stockQuantity := p.stockQuantity + order.quantity })
          organizations :=
            updateOne db.organizations order.organizationId (fun o =>
              { o with credits := o.credits - (order.quantity : ℚ) * 10 })
          orders :=
            updateOne db.orders id (fun o => { o with status := .cancelled }) },
       .ok ()) := by
  simp [updateStatus, ho, hp, hq, hnc]

/-- Reduction of `updateStatus` when the order is already cancelled: the
cancellation branch is skipped, only the status field is rewritten. -/
theorem updateStatus_already_cancelled_eq
    (id : Nat) (db : DB) (order : Order)
    (ho : findOne db.orders id = some order)
    (hc : order.status = .cancelled) :
    updateStatus id .cancelled db =
      ({ db with
          orders :=
            updateOne db.orders id (fun o => { o with status := .cancelled }) },
       .ok ()) := by
  simp [updateStatus, ho, hc]

/-- Reduction of `updateStatus` for a non-cancel target status: only the
status field is rewritten. -/
theorem updateStatus_plain_eq
    (id : Nat) (st : OrderStatus) (db : DB) (order : Order)
    (ho : findOne db.orders id = some order)
    (hst : st ≠ .cancelled) :
    updateStatus id st db =
      ({ db with
          orders := updateOne db.orders id (fun o => { o with status := st }) },
       .ok ()) := by
  simp [updateStatus, ho, hst]

/-- Running `createOrder` with a linked, in-organization, active product and
insufficient stock: throws and leaves the store untouched. -/
theorem createOrder_insufficientStock_eq
    (input : CreateOrderInput) (db : DB) (pid : Nat) (product : Product)
    (hpid : input.productId = some pid)
    (hp : findOne db.products pid = some product)
    (horg : product.organizationId = input.organizationId)
    (hact : product.isActive = true)
    (hstock : product.stockQuantity < input.quantity) :
    createOrder input db =
      (db, .error (.insufficientStock product.stockQuantity input.quantity)) := by
  simp [createOrder, hpid, hp, horg, hact, hstock]

/-- Running `createOrder` with a linked, in-organization, active product and
sufficient stock: succeeds and decrements the product's stock by the
ordered quantity. -/
theorem createOrder_ok_stock
    (input : CreateOrderInput) (db : DB) (pid : Nat) (product : Product)
    (hpid : input.productId = some pid)
    (hp : findOne db.products pid = some product)
    (horg : product.organizationId = input.organizationId)
    (hact : product.isActive = true)
    (hstock : input.quantity ≤ product.stockQuantity) :
    (createOrder input db).2 = .ok (freshId db.orders) ∧
    findOne (createOrder input db).1.products pid =
      some { product with stockQuantity := product.stockQuantity - input.quantity } := by
  have hn : ¬ product.stockQuantity < input.quantity := not_lt.mpr hstock
  simp [createOrder, hpid, hp, horg, hact, hn, findOne_updateOne_self]

/-- The `submitClientOrder` analogue of `createOrder_insufficientStock_eq`. -/
theorem submitClientOrder_insufficientStock_eq
    (input : ClientOrderInput) (db : DB) (pid : Nat) (product : Product)
    (hpid : input.productId = some pid)
    (hp : findOne db.products pid = some product)
    (horg : product.organizationId = input.organizationId)
    (hact : product.isActive = true)
    (hstock : product.stockQuantity < input.quantity) :
    submitClientOrder input db =
      (db, .error (.insufficientStock product.stockQuantity input.quantity)) := by
  simp [submitClientOrder, hpid, hp, horg, hact, hstock]

/-- The `submitClientOrder` analogue of `createOrder_ok_stock`. -/
theorem submitClientOrder_ok_stock
    (input : ClientOrderInput) (db : DB) (pid : Nat) (product : Product)
    (hpid : input.productId = some pid)
    (hp : findOne db.products pid = some product)
    (horg : product.organizationId = input.organizationId)
    (hact : product.isActive = true)
    (hstock : input.quantity ≤ product.stockQuantity) :
    (submitClientOrder input db).2 = .ok (freshId db.orders) ∧
    findOne (submitClientOrder input db).1.products pid =
      some { product with stockQuantity := product.stockQuantity - input.quantity } := by
  have hn : ¬ product.stockQuantity < input.quantity := not_lt.mpr hstock
  simp [submitClientOrder, hpid, hp, horg, hact, hn, findOne_updateOne_self]

/-! ## Concrete sample documents used by witnesses and counterexamples.
The numbers follow the worked scenario of the spec (quantity 2, price
350, per-line costs 40 + 10 + 6 + 0 + 21 + 0 + 0 = 77). -/

/-- A pending order of 2 units at price 350 with no product link. -/
def baseOrder : Order :=
  { organizationId := 1, productId := none, productCode := "VC1"
    productName := "Vitamin C", price := 350, quantity := 2
    channel := .line, status := .pending
    pickPackCost := 0, bubbleCost := 0, paperInsideCost := 0
    cancelOrderCost := 0, codCost := 0, boxCost := 0, deliveryFeeCost := 0
    totalShippingCost := 0 }

/-- Caller-supplied shipping costs summing to 77 for order 1. -/
def baseInput : ShippingCostInput :=
  { id := 1, organizationId := 1
    pickPackCost := some 40, bubbleCost := some 10, paperInsideCost := some 6
    cancelOrderCost := some 0, codCost := some 21
    boxCost := none, deliveryFeeCost := none }

/-! ## Claim C1 -/

/-- C1: when the sum of the seven caller-supplied cost fields exceeds the
organization's current credits, `orders.updateShippingCost` fails with
the insufficient-credits error carrying the required and available
amounts, and the store (organization credits, order document, ledger) is
returned unchanged. -/
theorem C1_insufficient_credits_fails_without_mutation
    (input : ShippingCostInput) (db : DB) (order : Order) (org : Organization)
    (ho : findOne db.orders input.id = some order)
    (hg : findOne db.organizations input.organizationId = some org)
    (hlt : org.credits < shippingTotal input) :
    updateShippingCost input db =
      (db, .error (.insufficientCredits (shippingTotal input) org.credits)) := by
  simp only [shippingTotal] at hlt
  simp [updateShippingCost, shippingTotal, ho, hg, hlt]

/-- The spec's second scenario: balance 50, required 77. -/
def c1Org : Organization := { name := "Acme", credits := 50 }

/-- Store for the C1 witness: one pending order, one organization with
50 credits, empty ledger. -/
def c1Db : DB :=
  { orders := [(1, baseOrder)], products := []
    organizations := [(1, c1Org)], credit_transactions := [] }

/-- C1 witness: with balance 50 and caller costs summing to 77 the call
fails with `insufficientCredits 77 50` and the store is unchanged. -/
theorem C1_witness :
    updateShippingCost baseInput c1Db =
      (c1Db, .error (.insufficientCredits 77 50)) := by
  have h := C1_insufficient_credits_fails_without_mutation baseInput c1Db
    baseOrder c1Org rfl rfl (by norm_num [shippingTotal, baseInput, c1Org])
  norm_num [shippingTotal, baseInput, c1Org] at h
  exact h

/-! ## Claim C2 -/

/-- C2: every successful shipping-cost deduction appends exactly one new
CreditTransaction, of type "deduct", whose amount is the total deducted,
with balanceBefore the organization's credits read before the deduction
and balanceAfter = balanceBefore - amount; the organization's stored
credits drop by the same amount. -/
theorem C2_success_appends_single_deduct_record
    (input : ShippingCostInput) (db : DB) (order : Order) (org : Organization)
    (ho : findOne db.orders input.id = some order)
    (hg : findOne db.organizations input.organizationId = some org)
    (hge : shippingTotal input ≤ org.credits) :
    ∃ tx : CreditTransaction,
      (updateShippingCost input db).2 =
        .ok (shippingTotal input, org.credits - shippingTotal input) ∧
      (updateShippingCost input db).1.credit_transactions =
        db.credit_transactions ++ [tx] ∧
      tx.type = "deduct" ∧
      tx.amount = shippingTotal input ∧
      tx.balanceBefore = org.credits ∧
      tx.balanceAfter = tx.balanceBefore - tx.amount ∧
      findOne (updateShippingCost input db).1.organizations input.organizationId =
        some { org with credits := org.credits - shippingTotal input } := by
  rw [updateShippingCost_ok input db order org ho hg hge]
  refine ⟨_, rfl, rfl, rfl, rfl, rfl, rfl, ?_⟩
  rw [findOne_updateOne_self, hg]
  rfl

/-- Organization with 100 credits, used by several witnesses. -/
def rich100Org : Organization := { name := "Acme", credits := 100 }

/-- Store for the C2 witness: balance 100, one pending order. -/
def c2Db : DB :=
  { orders := [(1, baseOrder)], products := []
    organizations := [(1, rich100Org)], credit_transactions := [] }

/-- C2 witness: the spec's first scenario (balance 100, total 77): one
new record, type "deduct", amount 77, 100 -> 23. -/
theorem C2_witness :
    ∃ tx : CreditTransaction,
      (updateShippingCost baseInput c2Db).2 = .ok (77, 23) ∧
      (updateShippingCost baseInput c2Db).1.credit_transactions = [tx] ∧
      tx.type = "deduct" ∧
      tx.amount = 77 ∧
      tx.balanceBefore = 100 ∧
      tx.balanceAfter = tx.balanceBefore - tx.amount ∧
      findOne (updateShippingCost baseInput c2Db).1.organizations 1 =
        some { name := "Acme", credits := 23 } := by
  obtain ⟨tx, h1, h2, h3, h4, h5, h6, h7⟩ :=
    C2_success_appends_single_deduct_record baseInput c2Db baseOrder rich100Org
      rfl rfl (by norm_num [shippingTotal, baseInput, rich100Org])
  refine ⟨tx, ?_, ?_, h3, ?_, ?_, h6, ?_⟩
  · norm_num [shippingTotal, baseInput, rich100Org] at h1
    exact h1
  · simpa [c2Db] using h2
  · norm_num [shippingTotal, baseInput] at h4
    exact h4
  · norm_num [rich100Org] at h5
    exact h5
  · norm_num [shippingTotal, baseInput, rich100Org] at h7 ⊢
    exact h7

/-! ## Claim C3 -/

/-- Store used by the C3 theorems: balance 100, one pending order. -/
def c3Db : DB :=
  { orders := [(1, baseOrder)], products := []
    organizations := [(1, rich100Org)], credit_transactions := [] }

/-- C3 counterexample: a successful `updateShippingCost` call after which
the order's status is still `pending`, not `sent_to_logistic`: the server
operation itself performs no status transition. -/
theorem C3_counterexample :
    (updateShippingCost baseInput c3Db).2 = .ok (77, 23) ∧
    (findOne (updateShippingCost baseInput c3Db).1.orders 1).map Order.status =
      some OrderStatus.pending ∧
    some OrderStatus.pending ≠ some OrderStatus.sent_to_logistic := by
  have h := updateShippingCost_ok baseInput c3Db baseOrder rich100Org rfl rfl
    (by norm_num [shippingTotal, baseInput, rich100Org])
  refine ⟨?_, ?_, by decide⟩
  · rw [h]
    norm_num [shippingTotal, baseInput, rich100Org]
  · rw [h]
    simp only [baseInput, findOne_updateOne_self]
    rfl

/-- C3 (amended): a successful `orders.updateShippingCost` persists the
seven cost fields and their total onto the order, but leaves the order's
status unchanged; the transition to `sent_to_logistic` is a separate
`updateStatus` call (issued client-side on success), after which the
status is `sent_to_logistic`. -/
theorem C3_costs_persisted_status_by_second_call
    (input : ShippingCostInput) (db : DB) (order : Order) (org : Organization)
    (ho : findOne db.orders input.id = some order)
    (hg : findOne db.organizations input.organizationId = some org)
    (hge : shippingTotal input ≤ org.credits) :
    (updateShippingCost input db).2 =
      .ok (shippingTotal input, org.credits - shippingTotal input) ∧
    findOne (updateShippingCost input db).1.orders input.id =
      some { order with
        pickPackCost := input.pickPackCost.getD 0
        bubbleCost := input.bubbleCost.getD 0
        paperInsideCost := input.paperInsideCost.getD 0
        cancelOrderCost := input.cancelOrderCost.getD 0
        codCost := input.codCost.getD 0
        boxCost := input.boxCost.getD 0
        deliveryFeeCost := input.deliveryFeeCost.getD 0
        totalShippingCost := shippingTotal input } ∧
    (findOne (updateShippingCost input db).1.orders input.id).map Order.status =
      some order.status ∧
    (findOne (updateStatus input.id .sent_to_logistic
        (updateShippingCost input db).1).1.orders input.id).map Order.status =
      some OrderStatus.sent_to_logistic := by
  rw [updateShippingCost_ok input db order org ho hg hge]
  have hfound : findOne
      (updateOne db.orders input.id (fun o =>
        { o with
          pickPackCost := input.pickPackCost.getD 0
          bubbleCost := input.bubbleCost.getD 0
          paperInsideCost := input.paperInsideCost.getD 0
          cancelOrderCost := input.cancelOrderCost.getD 0
          codCost := input.codCost.getD 0
          boxCost := input.boxCost.getD 0
          deliveryFeeCost := input.deliveryFeeCost.getD 0
          totalShippingCost := shippingTotal input })) input.id =
      some { order with
        pickPackCost := input.pickPackCost.getD 0
        bubbleCost := input.bubbleCost.getD 0
        paperInsideCost := input.paperInsideCost.getD 0
        cancelOrderCost := input.cancelOrderCost.getD 0
        codCost := input.codCost.getD 0
        boxCost := input.boxCost.getD 0
        deliveryFeeCost := input.deliveryFeeCost.getD 0
        totalShippingCost := shippingTotal input } := by
    rw [findOne_updateOne_self, ho]
    rfl
  refine ⟨rfl, hfound, ?_, ?_⟩
  · rw [hfound]
    rfl
  · rw [updateStatus_plain_eq input.id .sent_to_logistic _ _ hfound (by decide)]
    simp only []
    rw [findOne_updateOne_self, hfound]
    rfl

/-- C3 witness: concrete run of the amended statement on the balance-100
store; after the follow-up `updateStatus` call the status is
`sent_to_logistic`. -/
theorem C3_witness :
    (updateShippingCost baseInput c3Db).2 = .ok (77, 23) ∧
    (findOne (updateShippingCost baseInput c3Db).1.orders 1).map Order.status =
      some OrderStatus.pending ∧
    (findOne (updateStatus 1 .sent_to_logistic
        (updateShippingCost baseInput c3Db).1).1.orders 1).map Order.status =
      some OrderStatus.sent_to_logistic := by
  obtain ⟨h1, h2, h3, h4⟩ :=
    C3_costs_persisted_status_by_second_call baseInput c3Db baseOrder rich100Org
      rfl rfl (by norm_num [shippingTotal, baseInput, rich100Org])
  refine ⟨?_, ?_, h4⟩
  · norm_num [shippingTotal, baseInput, rich100Org] at h1
    exact h1
  · exact h3

/-! ## Claim C4 -/

/-- Store used by the C4 theorems: one pending order of quantity 2 with
no product link, one organization with 100 credits, empty ledger. -/
def c4Db : DB :=
  { orders := [(1, baseOrder)], products := []
    organizations := [(1, rich100Org)], credit_transactions := [] }

/-- C4 counterexample: cancelling order 1 moves the organization's
credits from 100 to 80 (the 10-per-unit fee on quantity 2), yet the
credit ledger stays empty: this credit mutation appends no
CreditTransaction, in particular no record of type "deduct". -/
theorem C4_counterexample :
    (findOne (updateStatus 1 OrderStatus.cancelled c4Db).1.organizations 1).map
        Organization.credits = some 80 ∧
    (findOne c4Db.organizations 1).map Organization.credits = some 100 ∧
    (updateStatus 1 OrderStatus.cancelled c4Db).1.credit_transactions = [] := by
  have hne : ¬ (OrderStatus.pending = OrderStatus.cancelled) := by decide
  refine ⟨?_, by rfl, ?_⟩ <;>
    norm_num [updateStatus, c4Db, baseOrder, rich100Org, findOne, updateOne,
      List.find?, hne]

/-- C4 (amended): transitioning a not-yet-cancelled order to `cancelled`
deducts the flat fee of 10 per ordered unit from the organization's
credits but appends NO CreditTransaction: the cancellation fee is the one
credit mutation that bypasses the ledger (addCredits, adjustCredits and
updateShippingCost do append records). -/
theorem C4_cancellation_fee_bypasses_ledger
    (id : Nat) (db : DB) (order : Order) (org : Organization)
    (ho : findOne db.orders id = some order)
    (hnc : order.status ≠ .cancelled)
    (horg : findOne db.organizations order.organizationId = some org) :
    (updateStatus id .cancelled db).1.credit_transactions =
      db.credit_transactions ∧
    findOne (updateStatus id .cancelled db).1.organizations
        order.organizationId =
      some { org with credits := org.credits - (order.quantity : ℚ) * 10 } := by
  refine ⟨updateStatus_ledger_invariant id .cancelled db, ?_⟩
  cases hp : order.productId with
  | none =>
    simp [updateStatus, ho, hp, hnc, findOne_updateOne_self, horg]
  | some pid =>
    cases hq : findOne db.products pid with
    | none => simp [updateStatus, ho, hp, hq, hnc, findOne_updateOne_self, horg]
    | some p => simp [updateStatus, ho, hp, hq, hnc, findOne_updateOne_self, horg]

/-- C4 witness: on the concrete store the amended statement evaluates to
an empty ledger and credits 80. -/
theorem C4_witness :
    (updateStatus 1 OrderStatus.cancelled c4Db).1.credit_transactions = [] ∧
    findOne (updateStatus 1 OrderStatus.cancelled c4Db).1.organizations 1 =
      some { name := "Acme", credits := 80 } := by
  obtain ⟨h1, h2⟩ := C4_cancellation_fee_bypasses_ledger 1 c4Db baseOrder
    rich100Org rfl (by decide) rfl
  refine ⟨h1, ?_⟩
  norm_num [rich100Org, baseOrder] at h2
  exact h2

/-! ## Claim C5 -/

/-- A delivered order of 3 units linked to product 7, owned by
organization 2. -/
def c5Order : Order :=
  { baseOrder with
    organizationId := 2
    productId := some 7
    quantity := 3
    status := .delivered }

/-- Product 7 with 5 units in stock. -/
def c5Product : Product :=
  { organizationId := 2, productCode := "VC1", productName := "Vitamin C"
    price := 350, stockQuantity := 5, isActive := true }

/-- Organization 2 with only 5 credits: the unguarded cancellation fee
will drive it negative. -/
def c5Org : Organization := { name := "Beta", credits := 5 }

/-- Store for the C5 witness. -/
def c5Db : DB :=
  { orders := [(1, c5Order)], products := [(7, c5Product)]
    organizations := [(2, c5Org)], credit_transactions := [] }

/-- C5: cancelling any not-yet-cancelled order that references an
existing product (from any state, including delivered) restores exactly
the order's quantity to the product's stock and deducts exactly
10 x quantity from the organization's credits, with no balance guard
(no hypothesis on the current balance is needed). -/
theorem C5_cancel_restores_stock_and_charges_fee
    (id : Nat) (db : DB) (order : Order) (pid : Nat) (product : Product)
    (org : Organization)
    (ho : findOne db.orders id = some order)
    (hnc : order.status ≠ .cancelled)
    (hp : order.productId = some pid)
    (hq : findOne db.products pid = some product)
    (horg : findOne db.organizations order.organizationId = some org) :
    (updateStatus id .cancelled db).2 = .ok () ∧
    findOne (updateStatus id .cancelled db).1.products pid =
      some { product with
        stockQuantity := product.stockQuantity + order.quantity } ∧
    findOne (updateStatus id .cancelled db).1.organizations
        order.organizationId =
      some { org with credits := org.credits - (order.quantity : ℚ) * 10 } := by
  rw [updateStatus_cancel_eq id db order pid product ho hnc hp hq]
  refine ⟨rfl, ?_, ?_⟩
  · simp only [findOne_updateOne_self, hq]
    rfl
  · simp only [findOne_updateOne_self, horg]
    rfl

/-- C5 witness: the spec's scenario (delivered order of quantity 3):
stock 5 -> 8, credits 5 -> -25, i.e. the fee is charged even though it
makes the balance negative. -/
theorem C5_witness :
    (updateStatus 1 OrderStatus.cancelled c5Db).2 = .ok () ∧
    findOne (updateStatus 1 OrderStatus.cancelled c5Db).1.products 7 =
      some { organizationId := 2, productCode := "VC1"
             productName := "Vitamin C", price := 350
             stockQuantity := 8, isActive := true } ∧
    findOne (updateStatus 1 OrderStatus.cancelled c5Db).1.organizations 2 =
      some { name := "Beta", credits := -25 } := by
  obtain ⟨h1, h2, h3⟩ := C5_cancel_restores_stock_and_charges_fee 1 c5Db
    c5Order 7 c5Product c5Org rfl (by decide) rfl rfl rfl
  refine ⟨h1, ?_, ?_⟩
  · norm_num [c5Product, c5Order, baseOrder] at h2
    exact h2
  · norm_num [c5Org, c5Order, baseOrder] at h3
    exact h3

/-! ## Claim C6 -/

/-- Product 7 with 5 units in stock, owned by organization 1. -/
def c6Product : Product :=
  { organizationId := 1, productCode := "VC1", productName := "Vitamin C"
    price := 350, stockQuantity := 5, isActive := true }

/-- Store for the C6 witness: just the product. -/
def c6Db : DB :=
  { orders := [], products := [(7, c6Product)]
    organizations := [], credit_transactions := [] }

/-- Admin order for 6 units of product 7 (exceeds the stock of 5). -/
def c6Input : CreateOrderInput :=
  { organizationId := 1, productId := some 7, productCode := ""
    productName := "Vitamin C", price := 350, quantity := 6
    channel := .line, status := .pending }

/-- Client order for 2 units of product 7 (within the stock of 5). -/
def c6CInput : ClientOrderInput :=
  { organizationId := 1, productId := some 7, productCode := ""
    productName := "Vitamin C", price := 350, quantity := 2
    channel := .shopee }

/-- C6: for order creation referencing an existing, active,
in-organization product - both the admin `create` route and the public
`submitClientOrder` route - a request above the current stock fails with
the insufficient-stock error and leaves the store untouched, and a
request within stock succeeds and decrements the stock by exactly the
ordered quantity. -/
theorem C6_order_creation_stock_guard
    (db : DB) (pid : Nat) (product : Product)
    (input : CreateOrderInput) (cinput : ClientOrderInput)
    (hpid : input.productId = some pid)
    (hp : findOne db.products pid = some product)
    (horg : product.organizationId = input.organizationId)
    (hact : product.isActive = true)
    (hcpid : cinput.productId = some pid)
    (hcorg : product.organizationId = cinput.organizationId) :
    (product.stockQuantity < input.quantity →
      createOrder input db =
        (db, .error (.insufficientStock product.stockQuantity input.quantity))) ∧
    (input.quantity ≤ product.stockQuantity →
      (createOrder input db).2 = .ok (freshId db.orders) ∧
      findOne (createOrder input db).1.products pid =
        some { product with
          stockQuantity := product.stockQuantity - input.quantity }) ∧
    (product.stockQuantity < cinput.quantity →
      submitClientOrder cinput db =
        (db, .error (.insufficientStock product.stockQuantity cinput.quantity))) ∧
    (cinput.quantity ≤ product.stockQuantity →
      (submitClientOrder cinput db).2 = .ok (freshId db.orders) ∧
      findOne (submitClientOrder cinput db).1.products pid =
        some { product with
          stockQuantity := product.stockQuantity - cinput.quantity }) :=
  ⟨fun h => createOrder_insufficientStock_eq input db pid product
      hpid hp horg hact h,
   fun h => createOrder_ok_stock input db pid product hpid hp horg hact h,
   fun h => submitClientOrder_insufficientStock_eq cinput db pid product
      hcpid hp hcorg hact h,
   fun h => submitClientOrder_ok_stock cinput db pid product
      hcpid hp hcorg hact h⟩

/-- C6 witness: on stock 5, the admin request for 6 units fails with
`insufficientStock 5 6` leaving the store unchanged, and the client
request for 2 units succeeds leaving stock 3. -/
theorem C6_witness :
    createOrder c6Input c6Db =
      (c6Db, .error (.insufficientStock 5 6)) ∧
    (submitClientOrder c6CInput c6Db).2 = .ok 1 ∧
    findOne (submitClientOrder c6CInput c6Db).1.products 7 =
      some { organizationId := 1, productCode := "VC1"
             productName := "Vitamin C", price := 350
             stockQuantity := 3, isActive := true } := by
  obtain ⟨ha, hb, hc, hd⟩ := C6_order_creation_stock_guard c6Db 7 c6Product
    c6Input c6CInput rfl rfl rfl rfl rfl rfl
  have h1 := ha (by decide)
  have h2 := hd (by decide)
  have h3 := h2.2
  norm_num [c6Product, c6CInput] at h3
  exact ⟨h1, h2.1, h3⟩

/-! ## Claim C7 -/

/-- C7: for every order and rate configuration, the client-side total
shipping cost equals
pickPack*qty + bubble*qty + paperInside*qty
+ (cancelOrder*qty if the order is cancelled, else 0)
+ codPercent/100 * (price*qty) + box + deliveryFee. -/
theorem C7_total_cost_formula (rates : Rates) (order : Order) :
    getTotalCost rates order =
      rates.pickPack * (order.quantity : ℚ) +
      rates.bubble * (order.quantity : ℚ) +
      rates.paperInside * (order.quantity : ℚ) +
      (if order.status = OrderStatus.cancelled then
        rates.cancelOrder * (order.quantity : ℚ) else 0) +
      rates.codPercent / 100 * (order.price * (order.quantity : ℚ)) +
      rates.box + rates.deliveryFee := by
  by_cases h : order.status = OrderStatus.cancelled <;>
    simp [getTotalCost, calculateOrderCosts, h] <;> ring

/-! ## Claim C8 -/

/-- Order with misleading stored data (quantity 5, price 999, stored
total 500): none of it may influence the deducted amount. -/
def c8Order : Order :=
  { baseOrder with
    quantity := 5
    price := 999
    pickPackCost := 123
    totalShippingCost := 500 }

/-- Store for the C8 witness. -/
def c8Db : DB :=
  { orders := [(1, c8Order)], products := []
    organizations := [(1, rich100Org)], credit_transactions := [] }

/-- C8: on success, `updateShippingCost` deducts and records exactly the
sum of the seven caller-supplied cost fields (each omitted field taken
as 0), for every order whatsoever: the stored quantity, price and cost
fields of the order are universally quantified and do not appear in the
deducted amount or the persisted total. -/
theorem C8_deducts_exactly_caller_supplied_sum
    (input : ShippingCostInput) (db : DB) (order : Order) (org : Organization)
    (ho : findOne db.orders input.id = some order)
    (hg : findOne db.organizations input.organizationId = some org)
    (hge : input.pickPackCost.getD 0 + input.bubbleCost.getD 0 +
           input.paperInsideCost.getD 0 + input.cancelOrderCost.getD 0 +
           input.codCost.getD 0 + input.boxCost.getD 0 +
           input.deliveryFeeCost.getD 0 ≤ org.credits) :
    (updateShippingCost input db).2 =
      .ok (input.pickPackCost.getD 0 + input.bubbleCost.getD 0 +
           input.paperInsideCost.getD 0 + input.cancelOrderCost.getD 0 +
           input.codCost.getD 0 + input.boxCost.getD 0 +
           input.deliveryFeeCost.getD 0,
           org.credits -
            (input.pickPackCost.getD 0 + input.bubbleCost.getD 0 +
             input.paperInsideCost.getD 0 + input.cancelOrderCost.getD 0 +
             input.codCost.getD 0 + input.boxCost.getD 0 +
             input.deliveryFeeCost.getD 0)) ∧
    (∃ tx, (updateShippingCost input db).1.credit_transactions =
        db.credit_transactions ++ [tx] ∧
      tx.amount = input.pickPackCost.getD 0 + input.bubbleCost.getD 0 +
        input.paperInsideCost.getD 0 + input.cancelOrderCost.getD 0 +
        input.codCost.getD 0 + input.boxCost.getD 0 +
        input.deliveryFeeCost.getD 0) ∧
    (∃ o2, findOne (updateShippingCost input db).1.orders input.id = some o2 ∧
      o2.totalShippingCost = input.pickPackCost.getD 0 + input.bubbleCost.getD 0 +
        input.paperInsideCost.getD 0 + input.cancelOrderCost.getD 0 +
        input.codCost.getD 0 + input.boxCost.getD 0 +
        input.deliveryFeeCost.getD 0) := by
  have hge2 : shippingTotal input ≤ org.credits := hge
  rw [updateShippingCost_ok input db order org ho hg hge2]
  have hfound : findOne
      (updateOne db.orders input.id (fun o =>
        { o with
          pickPackCost := input.pickPackCost.getD 0
          bubbleCost := input.bubbleCost.getD 0
          paperInsideCost := input.paperInsideCost.getD 0
          cancelOrderCost := input.cancelOrderCost.getD 0
          codCost := input.codCost.getD 0
          boxCost := input.boxCost.getD 0
          deliveryFeeCost := input.deliveryFeeCost.getD 0
          totalShippingCost := shippingTotal input })) input.id =
      some { order with
        pickPackCost := input.pickPackCost.getD 0
        bubbleCost := input.bubbleCost.getD 0
        paperInsideCost := input.paperInsideCost.getD 0
        cancelOrderCost := input.cancelOrderCost.getD 0
        codCost := input.codCost.getD 0
        boxCost := input.boxCost.getD 0
        deliveryFeeCost := input.deliveryFeeCost.getD 0
        totalShippingCost := shippingTotal input } := by
    rw [findOne_updateOne_self, ho]
    rfl
  exact ⟨rfl, ⟨_, rfl, rfl⟩, ⟨_, hfound, rfl⟩⟩

/-- C8 witness: caller supplies costs summing to 77 (two fields
omitted); despite the stored quantity 5, price 999 and stored total 500
on the order, the deduction and the persisted total are exactly 77. -/
theorem C8_witness :
    (updateShippingCost baseInput c8Db).2 = .ok (77, 23) ∧
    (∃ tx, (updateShippingCost baseInput c8Db).1.credit_transactions = [tx] ∧
      tx.amount = 77) ∧
    (∃ o2, findOne (updateShippingCost baseInput c8Db).1.orders 1 = some o2 ∧
      o2.totalShippingCost = 77) := by
  obtain ⟨h1, ⟨tx, h2, h3⟩, ⟨o2, h4, h5⟩⟩ :=
    C8_deducts_exactly_caller_supplied_sum baseInput c8Db c8Order rich100Org
      rfl rfl (by norm_num [baseInput, rich100Org])
  refine ⟨?_, ⟨tx, ?_, ?_⟩, ⟨o2, h4, ?_⟩⟩
  · norm_num [baseInput, rich100Org] at h1
    exact h1
  · exact h2
  · norm_num [baseInput] at h3
    exact h3
  · norm_num [baseInput] at h5
    exact h5

/-! ## Claim C9 -/

/-- Store for the C9 theorems: one pending order, organization 1 with
100 credits, empty ledger. -/
def c9Db : DB :=
  { orders := [(1, baseOrder)], products := []
    organizations := [(1, rich100Org)], credit_transactions := [] }

/-- Top-up of 30 credits. -/
def c9AddInput : AddCreditsInput :=
  { organizationId := 1, amount := 30, description := "topup" }

/-- Adjustment setting the balance to 40. -/
def c9AdjInput : AdjustCreditsInput :=
  { organizationId := 1, newAmount := 40, description := "correction" }

/-- C9 counterexample: the record appended by the shipping-cost
deduction has balanceBefore 100, amount 77, balanceAfter 23, and
23 is not 100 + 77: deduct records violate
balanceAfter = balanceBefore + amount. -/
theorem C9_counterexample :
    (updateShippingCost baseInput c9Db).1.credit_transactions.map
        (fun tx => (tx.type, tx.balanceBefore, tx.amount, tx.balanceAfter)) =
      [("deduct", (100:ℚ), (77:ℚ), (23:ℚ))] ∧
    (23:ℚ) ≠ 100 + 77 := by
  have h := updateShippingCost_ok baseInput c9Db baseOrder rich100Org rfl rfl
    (by norm_num [shippingTotal, baseInput, rich100Org])
  constructor
  · rw [h]
    norm_num [shippingTotal, baseInput, rich100Org, c9Db]
  · norm_num

/-- C9 (amended): records appended by `addCredits` and `adjustCredits`
satisfy balanceAfter = balanceBefore + amount, but the record appended by
the shipping-cost deduction stores its (positive) amount with
balanceAfter = balanceBefore - amount. -/
theorem C9_ledger_balance_equation_by_type
    (db : DB)
    (ai : AddCreditsInput) (orgA : Organization)
    (hga : findOne db.organizations ai.organizationId = some orgA)
    (ji : AdjustCreditsInput) (orgJ : Organization)
    (hgj : findOne db.organizations ji.organizationId = some orgJ)
    (si : ShippingCostInput) (order : Order) (org : Organization)
    (ho : findOne db.orders si.id = some order)
    (hg : findOne db.organizations si.organizationId = some org)
    (hge : shippingTotal si ≤ org.credits) :
    (∃ tx, (addCredits ai db).1.credit_transactions =
        db.credit_transactions ++ [tx] ∧
      tx.type = "add" ∧ tx.balanceAfter = tx.balanceBefore + tx.amount) ∧
    (∃ tx, (adjustCredits ji db).1.credit_transactions =
        db.credit_transactions ++ [tx] ∧
      tx.type = "adjust" ∧ tx.balanceAfter = tx.balanceBefore + tx.amount) ∧
    (∃ tx, (updateShippingCost si db).1.credit_transactions =
        db.credit_transactions ++ [tx] ∧
      tx.type = "deduct" ∧ tx.amount = shippingTotal si ∧
      tx.balanceAfter = tx.balanceBefore - tx.amount) := by
  refine ⟨?_, ?_, ?_⟩
  · simp only [addCredits, hga]
    exact ⟨_, rfl, rfl, rfl⟩
  · simp only [adjustCredits, hgj]
    refine ⟨_, rfl, rfl, ?_⟩
    ring
  · rw [updateShippingCost_ok si db order org ho hg hge]
    exact ⟨_, rfl, rfl, rfl, rfl⟩

/-- C9 witness: on the balance-100 store, the add record (amount 30)
and the adjust record (balance set to 40) satisfy
after = before + amount, while the deduct record (amount 77) satisfies
after = before - amount. -/
theorem C9_witness :
    (∃ tx, (addCredits c9AddInput c9Db).1.credit_transactions = [tx] ∧
      tx.type = "add" ∧ tx.balanceAfter = tx.balanceBefore + tx.amount) ∧
    (∃ tx, (adjustCredits c9AdjInput c9Db).1.credit_transactions = [tx] ∧
      tx.type = "adjust" ∧ tx.balanceAfter = tx.balanceBefore + tx.amount) ∧
    (∃ tx, (updateShippingCost baseInput c9Db).1.credit_transactions = [tx] ∧
      tx.type = "deduct" ∧ tx.amount = 77 ∧
      tx.balanceAfter = tx.balanceBefore - tx.amount) := by
  obtain ⟨⟨t1, a1, a2, a3⟩, ⟨t2, b1, b2, b3⟩, ⟨t3, c1, c2, c3, c4⟩⟩ :=
    C9_ledger_balance_equation_by_type c9Db c9AddInput rich100Org rfl
      c9AdjInput rich100Org rfl baseInput baseOrder rich100Org rfl rfl
      (by norm_num [shippingTotal, baseInput, rich100Org])
  refine ⟨⟨t1, a1, a2, a3⟩, ⟨t2, b1, b2, b3⟩, ⟨t3, c1, c2, ?_, c4⟩⟩
  norm_num [shippingTotal, baseInput] at c3
  exact c3

/-! ## Claim C10 -/

/-- An already-cancelled order of 2 units linked to product 7. -/
def c10Order : Order :=
  { baseOrder with
    productId := some 7
    status := .cancelled }

/-- Product 7 with 5 units in stock, owned by organization 1. -/
def c10Product : Product :=
  { organizationId := 1, productCode := "VC1", productName := "Vitamin C"
    price := 350, stockQuantity := 5, isActive := true }

/-- Store for the C10 witness. -/
def c10Db : DB :=
  { orders := [(1, c10Order)], products := [(7, c10Product)]
    organizations := [(1, rich100Org)], credit_transactions := [] }

/-- C10: cancelling an order whose status is already `cancelled` leaves
the products, organizations and ledger collections unchanged and only
rewrites the order's status field: repeating a cancellation has no
further stock or credit effect. -/
theorem C10_repeat_cancel_no_side_effects
    (id : Nat) (db : DB) (order : Order)
    (ho : findOne db.orders id = some order)
    (hc : order.status = .cancelled) :
    updateStatus id .cancelled db =
      ({ db with
          orders :=
            updateOne db.orders id (fun o => { o with status := .cancelled }) },
       .ok ()) ∧
    (updateStatus id .cancelled db).1.products = db.products ∧
    (updateStatus id .cancelled db).1.organizations = db.organizations ∧
    (updateStatus id .cancelled db).1.credit_transactions =
      db.credit_transactions := by
  have h := updateStatus_already_cancelled_eq id db order ho hc
  rw [h]
  exact ⟨rfl, rfl, rfl, rfl⟩

/-- C10 witness: cancelling the already-cancelled order 1 leaves product
stock (5), credits (100) and the ledger untouched. -/
theorem C10_witness :
    updateStatus 1 OrderStatus.cancelled c10Db =
      ({ c10Db with
          orders :=
            updateOne c10Db.orders 1
              (fun o => { o with status := .cancelled }) },
       .ok ()) ∧
    (updateStatus 1 OrderStatus.cancelled c10Db).1.products =
      c10Db.products ∧
    (updateStatus 1 OrderStatus.cancelled c10Db).1.organizations =
      c10Db.organizations ∧
    (updateStatus 1 OrderStatus.cancelled c10Db).1.credit_transactions =
      c10Db.credit_transactions :=
  C10_repeat_cancel_no_side_effects 1 c10Db c10Order rfl rfl

end RndAi
